import Mathlib

/-!
Verification of the event-normalization and routing subsystem of the
unicorn-discord-bot framework.  The definitions below are a shallow
embedding of the JavaScript source: `User.js` (Actor construction and
role queries), `UnifiedInteraction.js` (normalized events, the event
classifier and the reply fallback protocol), `Command.js` (descriptor
validation, listener registration, the authorization gate) and
`DiscordBot.js` (the dispatcher and the event-emitter registry).
JavaScript values that may be `undefined` are modelled with `Option`;
fields that distinguish `undefined` from `null` use the three-valued
`JsOpt`.  Thrown exceptions are modelled with `Except String`.
-/

namespace UnicornBot

/-- Three-valued JavaScript field: missing (`undefined`), explicit `null`,
or an actual value.  Needed where the source distinguishes `=== null`
from mere falsiness. -/
inductive JsOpt (α : Type) where
  | undef : JsOpt α
  | null : JsOpt α
  | val : α → JsOpt α
deriving DecidableEq, Repr

/-- A JsOpt field is absent when it is `undefined` or `null` (both are
falsy and both mean "no guild context" for a raw event). -/
def JsOpt.isAbsent {α : Type} : JsOpt α → Bool
  | .undef => true
  | .null => true
  | .val _ => false

/-- Truthiness of a JsOpt object field (objects are truthy, `null` and
`undefined` are falsy). -/
def JsOpt.truthy {α : Type} : JsOpt α → Bool
  | .val _ => true
  | _ => false

/-- Truthiness of a JavaScript string: the empty string is falsy. -/
def strTruthy : Option String → Bool
  | none => false
  | some s => !s.isEmpty

/-- JavaScript `a || b` on possibly-undefined strings. -/
def jsOrStr (a b : Option String) : Option String :=
  if strTruthy a then a else b

/-- JavaScript `a || b` on possibly-undefined objects
(an object is truthy whenever present). -/
def jsOrObj {α : Type} (a b : Option α) : Option α :=
  match a with
  | some x => some x
  | none => b

/-- Substring containment on character lists (structurally recursive so
that concrete instances evaluate): the needle occurs as a prefix of
some suffix of the haystack. -/
def containsSub (hay needle : List Char) : Bool :=
  needle.isPrefixOf hay ||
    (match hay with
     | [] => false
     | _ :: t => containsSub t needle)

/-- JavaScript `s.includes(sub)`: substring containment, true for the
empty needle. -/
def jsIncludes (s sub : String) : Bool :=
  containsSub s.data sub.data

/-- JavaScript `s.toLowerCase()` restricted to ASCII case folding. -/
def strToLower (s : String) : String :=
  String.mk (s.data.map Char.toLower)

/-- JavaScript `s.startsWith(p)`. -/
def strStartsWith (s p : String) : Bool :=
  p.data.isPrefixOf s.data

/-- JavaScript `s.slice(n)`: drop the first `n` characters. -/
def strDropChars (s : String) (n : Nat) : String :=
  String.mk (s.data.drop n)

/-- JavaScript `s.split(sep)[0]`: the characters before the first
occurrence of the separator (the whole string when absent). -/
def strHeadToken (s : String) (sep : Char) : String :=
  String.mk (s.data.takeWhile (fun c => c != sep))

/-- A guild role as read from the member's role cache: `id` and display
`name` (src/lib/User.js `hasRole` consults both). -/
structure RoleV where
  id : String
  name : String
deriving DecidableEq, Repr

/-- A platform account (discord.js `User`): stable id plus the bot flag. -/
structure UserV where
  id : String
  bot : Bool
deriving DecidableEq, Repr

/-- A guild membership record (discord.js `GuildMember`): the underlying
account, the nickname and the cached role list. -/
structure MemberV where
  user : UserV
  nickname : Option String
  roles : List RoleV
deriving DecidableEq, Repr

/-- A guild: its member cache, keyed by user id
(`guild.members.cache.get(user.id)` in src/lib/User.js). -/
structure GuildV where
  memberCache : List (String × MemberV)
deriving DecidableEq, Repr

/-- Lookup in the guild member cache; `none` models a cache miss
(`Map.prototype.get` returning `undefined`). -/
def GuildV.cacheGet (g : GuildV) (uid : String) : Option MemberV :=
  (g.memberCache.find? (fun p => p.1 == uid)).map (fun p => p.2)

/-- The Actor built by the `User` class constructor in src/lib/User.js:
a resolved membership (or `null`), the underlying account, its id and
bot flag. -/
structure UserActor where
  member : Option MemberV
  user : UserV
  userId : String
  isBot : Bool
deriving DecidableEq, Repr

/-- Embedding of the `User` constructor (src/lib/User.js lines 4-40).
`if (user && guild)` resolves the member through the guild cache,
`else if (member)` takes the member argument; when no member resolved,
the bare-user branch reads `user.id` — a `TypeError` when `user` is
`undefined` (this is the only failing path; the constructor's own
explicit throw at line 38 is unreachable because every non-throwing
path sets `initialized`). -/
def mkUser (memberArg : Option MemberV) (userArg : Option UserV)
    (guildArg : JsOpt GuildV) : Except String UserActor :=
  let resolved : Option MemberV :=
    match userArg, guildArg with
    | some u, .val g => g.cacheGet u.id
    | _, _ => memberArg
  match resolved with
  | none =>
    match userArg with
    | none => .error "TypeError: Cannot read properties of undefined (reading id)"
    | some u => .ok { member := none, user := u, userId := u.id, isBot := u.bot }
  | some m =>
    .ok { member := some m, user := m.user, userId := m.user.id, isBot := m.user.bot }

/-- Role list of an Actor (src/lib/User.js `roles` getter): empty when
there is no resolved membership. -/
def UserActor.rolesOf (a : UserActor) : List RoleV :=
  match a.member with
  | none => []
  | some m => m.roles

/-- Embedding of `User.hasRole` (src/lib/User.js lines 74-80): an entry
matches when it equals the role's name or the role's id. -/
def UserActor.hasRole (a : UserActor) (roleNameOrId : String) : Bool :=
  a.rolesOf.any (fun r => r.name == roleNameOrId || r.id == roleNameOrId)

/-- The raw platform event consumed by the `UnifiedInteraction`
constructor: the union of the interaction-shaped and message-shaped
fields the core reads.  `isButtonFn`/`isSelectMenuFn` model
`typeof x.isButton === 'function' && x.isButton()`: `none` when the
method is missing, `some b` when it is present and returns `b`. -/
structure RawEvent where
  content : Option String
  locale : Option String
  guildLocale : Option String
  member : Option MemberV
  user : Option UserV
  author : Option UserV
  guild : JsOpt GuildV
  commandName : Option String
  customId : Option String
  isButtonFn : Option Bool
  isSelectMenuFn : Option Bool
  menuValues : List String
  mentionsUsers : Option (List String)
deriving DecidableEq, Repr

/-- The bot/runtime context a Normalized Event consults: the configured
command marker string, the live registered message-command set, the
bot's own account identity and its configured error content. -/
structure BotState where
  cmdMarker : String
  messageCommands : List String
  selfUserId : String
  selfUsername : String
  errorContent : String
deriving DecidableEq, Repr

/-- The Normalized Event built by the `UnifiedInteraction` constructor
(src/lib/UnifiedInteraction.js lines 5-24).  `commandName` is mutable
in the source (the message-command check writes it), so operations that
may write return an updated copy. -/
structure Interaction where
  content : String
  locale : String
  author : UserActor
  guild : JsOpt GuildV
  isDM : Bool
  commandName : Option String
  isSlashCommand : Bool
  raw : RawEvent
deriving DecidableEq, Repr

/-- Embedding of the `UnifiedInteraction` constructor: content defaults
to the empty string, locale falls back event locale → guild locale →
"default", the author Actor is built from `member`, `user || author`
and `guild`, `isDM` is the strict comparison `guild === null`, and
`commandName`/`isSlashCommand` derive from the raw `commandName`. -/
def mkInteraction (raw : RawEvent) (_bot : BotState) : Except String Interaction :=
  match mkUser raw.member (jsOrObj raw.user raw.author) raw.guild with
  | .error e => .error e
  | .ok author => .ok {
    content := match raw.content with | none => "" | some s => s
    locale := match jsOrStr raw.locale raw.guildLocale with
      | some s => if s.isEmpty then "default" else s
      | none => "default"
    author := author
    guild := raw.guild
    isDM := raw.guild == JsOpt.null
    commandName := if strTruthy raw.commandName then raw.commandName else none
    isSlashCommand := strTruthy raw.commandName
    raw := raw }

/-- Embedding of the `isButton` getter (src/lib/UnifiedInteraction.js
lines 26-33): truthy customId and an `isButton` method returning true. -/
def Interaction.isButton (i : Interaction) : Bool :=
  strTruthy i.raw.customId && i.raw.isButtonFn == some true

/-- Embedding of the `buttonId` getter: the customId when the event is a
button press, `null` otherwise. -/
def Interaction.buttonId (i : Interaction) : Option String :=
  if i.isButton then i.raw.customId else none

/-- Embedding of the `isSelectMenu` getter. -/
def Interaction.isSelectMenu (i : Interaction) : Bool :=
  strTruthy i.raw.customId && i.raw.isSelectMenuFn == some true

/-- Embedding of the `selectMenuId` getter. -/
def Interaction.selectMenuId (i : Interaction) : Option String :=
  if i.isSelectMenu then i.raw.customId else none

/-- The token the message-command check parses: the content with the
configured marker stripped, up to the first space
(`content.slice(prefix.length).split(' ')[0]`). -/
def mcToken (i : Interaction) (bot : BotState) : String :=
  strHeadToken (strDropChars i.content bot.cmdMarker.length) ' ' 

/-- Embedding of the `isMessageCommand` getter (src/lib/
UnifiedInteraction.js lines 76-88).  When the guard matches and the
parsed token is in the live message-command set, the source WRITES
`this.commandName` before returning true; the embedding returns the
updated event alongside the boolean. -/
def Interaction.isMessageCommand (i : Interaction) (bot : BotState) :
    Bool × Interaction :=
  if !i.isSlashCommand && !i.isButton && strStartsWith i.content bot.cmdMarker then
    let possible := mcToken i bot
    if bot.messageCommands.contains possible then
      (true, { i with commandName := some possible })
    else (false, i)
  else (false, i)

/-- Embedding of the `isToMe` getter: the bot's id is in the mentions
set; false when the raw event has no mentions field. -/
def Interaction.isToMe (i : Interaction) (bot : BotState) : Bool :=
  match i.raw.mentionsUsers with
  | none => false
  | some us => us.contains bot.selfUserId

/-- Embedding of the `isMentioningMe` getter: case-insensitive substring
match of the bot's account name in the content. -/
def Interaction.isMentioningMe (i : Interaction) (bot : BotState) : Bool :=
  jsIncludes (strToLower i.content) (strToLower bot.selfUsername)

/-- Embedding of the `isFromBot` getter. -/
def Interaction.isFromBot (i : Interaction) : Bool :=
  i.author.isBot

/-- Embedding of the `isFromMe` getter: the author's id equals the bot's
own account id. -/
def Interaction.isFromMe (i : Interaction) (bot : BotState) : Bool :=
  i.author.userId == bot.selfUserId

/-- String interpolation of a possibly-undefined command name
(template literals print `undefined`). -/
def optStr : Option String → String
  | none => "undefined"
  | some s => s

/-- Embedding of the `eventName` getter (src/lib/UnifiedInteraction.js
lines 90-109): a `switch (true)` whose cases run in source order, so
the first matching rule decides.  The message-command case may write
`commandName`, hence the returned updated event. -/
def Interaction.eventName (i : Interaction) (bot : BotState) :
    Option String × Interaction :=
  if i.isButton then (some ("button:" ++ optStr i.buttonId), i)
  else if i.isSelectMenu then (some ("selectMenu:" ++ optStr i.selectMenuId), i)
  else if i.isSlashCommand then (some ("slashCommand:" ++ optStr i.commandName), i)
  else
    match i.isMessageCommand bot with
    | (true, i2) => (some ("messageCommand:" ++ optStr i2.commandName), i2)
    | (false, i2) =>
      if i2.isToMe bot || i2.isMentioningMe bot then (some "mention", i2)
      else if i2.isDM then (some "directMessage", i2)
      else if !i2.isToMe bot && !i2.isMentioningMe bot then (some "message", i2)
      else (none, i2)

/-- One of the three reply delivery strategies of the reply method. -/
inductive Strategy where
  | direct : Strategy
  | editReply : Strategy
  | followUp : Strategy
deriving DecidableEq, Repr

/-- Environment for one reply call: whether each underlying platform
call (`reply`, `editReply`, `followUp` on the raw handle) would
succeed if attempted. -/
structure ReplyEnv where
  directOk : Bool
  editOk : Bool
  followOk : Bool
deriving DecidableEq, Repr

/-- Embedding of `UnifiedInteraction.reply` (src/lib/UnifiedInteraction.js
lines 158-199).  The local `repliedWith` starts as "none" and is set to
"reply" only when the first strategy succeeds; the `editReply` and
`followUp` attempts are guarded by `repliedWith === 'none'` but their
catch-protected bodies never assign `repliedWith`.  The result records
the strategies attempted (in order) and the outcome: `.error` exactly
when the method throws "failed to reply to interaction". -/
def replyOp (env : ReplyEnv) : List Strategy × Except String Unit :=
  let repliedWith : String := if env.directOk then "reply" else "none"
  let attempted : List Strategy := [Strategy.direct]
  let attempted := if repliedWith == "none" then attempted ++ [Strategy.editReply] else attempted
  let attempted := if repliedWith == "none" then attempted ++ [Strategy.followUp] else attempted
  if repliedWith == "none" then
    (attempted, .error "failed to reply to interaction")
  else
    (attempted, .ok ())

/-- A command definition as supplied to the `Command` constructor
(src/lib/Command.js lines 57-79), restricted to the fields the routing
core reads.  Handler functions are modelled by presence flags; the
empty string models a missing name or description. -/
structure CommandDef where
  name : String
  description : String
  hasCommandHandler : Bool := true
  hasButtonsHandler : Bool := false
  hasSelectMenusHandler : Bool := false
  hasMentionHandler : Bool := false
  hasMessageHandler : Bool := false
  hasDmHandler : Bool := false
  isSlashCommand : Bool := true
  isMessageCommand : Bool := true
  requiredRoles : List String := []
  requireAllRoles : Bool := false
  requiredRolesErrorMessage : String := "You do not have the required roles to use this command."
  buttonsHandheld : List String := []
  selectMenusHandheld : List String := []
deriving DecidableEq, Repr

/-- A validated command descriptor (the `Command` instance after
`_check` ran). -/
structure Command where
  name : String
  description : String
  hasButtonsHandler : Bool
  hasSelectMenusHandler : Bool
  hasMentionHandler : Bool
  hasMessageHandler : Bool
  hasDmHandler : Bool
  isSlashCommand : Bool
  isMessageCommand : Bool
  requiredRoles : List String
  requireAllRoles : Bool
  requiredRolesErrorMessage : String
  buttonsHandheld : List String
  selectMenusHandheld : List String
deriving DecidableEq, Repr

/-- Embedding of the `Command` constructor's name folding and of
`_check` (src/lib/Command.js lines 141-202): a falsy name or
description throws; button/select-menu identifier lists declared
without the corresponding handler are stripped with a warning
(never a thrown error). -/
def mkCommand (d : CommandDef) : Except String Command :=
  let lowered := strToLower d.name
  if lowered.isEmpty then
    .error "A command must have a name..."
  else if d.description.isEmpty then
    .error "Command must have a description"
  else
    let buttons := if d.buttonsHandheld.length > 0 && !d.hasButtonsHandler
      then [] else d.buttonsHandheld
    let menus := if d.selectMenusHandheld.length > 0 && !d.hasSelectMenusHandler
      then [] else d.selectMenusHandheld
    .ok {
      name := lowered
      description := d.description
      hasButtonsHandler := d.hasButtonsHandler
      hasSelectMenusHandler := d.hasSelectMenusHandler
      hasMentionHandler := d.hasMentionHandler
      hasMessageHandler := d.hasMessageHandler
      hasDmHandler := d.hasDmHandler
      isSlashCommand := d.isSlashCommand
      isMessageCommand := d.isMessageCommand
      requiredRoles := d.requiredRoles
      requireAllRoles := d.requireAllRoles
      requiredRolesErrorMessage := d.requiredRolesErrorMessage
      buttonsHandheld := buttons
      selectMenusHandheld := menus }

/-- The registry underlying the dispatcher is the bot's EventEmitter:
an ordered list of (event-kind key, handler id) listener registrations
(`this.bot.on(key, listener)` in `_listen`). -/
structure Registry where
  listeners : List (String × Nat)
deriving DecidableEq, Repr

/-- An empty registry. -/
def Registry.empty : Registry := { listeners := [] }

/-- EventEmitter `on`: appends a listener; never inspects existing
registrations for the same key. -/
def Registry.on (r : Registry) (key : String) (hid : Nat) : Registry :=
  { listeners := r.listeners ++ [(key, hid)] }

/-- The handler ids registered under a key, in registration order
(the listeners `emit` would invoke). -/
def Registry.handlersFor (r : Registry) (key : String) : List Nat :=
  (r.listeners.filter (fun p => p.1 == key)).map (fun p => p.2)

/-- The event-kind keys `_listen` subscribes a descriptor to
(src/lib/Command.js lines 330-407), in source order: buttons, select
menus, slash command, message command, message handler, mention
handler, DM handler. -/
def listenKeys (c : Command) : List String :=
  (c.buttonsHandheld.map (fun b => "button:" ++ b))
  ++ (c.selectMenusHandheld.map (fun s => "selectMenu:" ++ s))
  ++ (if c.isSlashCommand then ["slashCommand:" ++ c.name] else [])
  ++ (if c.isMessageCommand then ["messageCommand:" ++ c.name] else [])
  ++ (if c.hasMessageHandler then ["message"] else [])
  ++ (if c.hasMentionHandler then ["mention"] else [])
  ++ (if c.hasDmHandler then ["directMessage"] else [])

/-- Embedding of `_listen`: register the descriptor under every key it
handles, via the EventEmitter.  Total — the source performs no
collision check and never throws here. -/
def Registry.listen (r : Registry) (c : Command) (hid : Nat) : Registry :=
  (listenKeys c).foldl (fun acc k => acc.on k hid) r

/-- Embedding of `DiscordBot.addCommand` for the routing core: construct
the `Command` (running `_check`, which may throw) and register its
listeners. -/
def Registry.addCommand (r : Registry) (d : CommandDef) (hid : Nat) :
    Except String Registry :=
  match mkCommand d with
  | .error e => .error e
  | .ok c => .ok (r.listen c hid)

/-- Embedding of `Command._checkRequiredRoles` (src/lib/Command.js lines
439-458): with a non-empty policy, collect the required entries the
author actually has; under `requireAllRoles` succeed exactly when all
were found, otherwise when at least one was. -/
def checkRequiredRoles (c : Command) (a : UserActor) : Bool :=
  if c.requiredRoles.length > 0 then
    let rolesFound := c.requiredRoles.filter (fun role => a.hasRole role)
    if c.requireAllRoles then
      rolesFound.length == c.requiredRoles.length
    else
      rolesFound.length > 0
  else true

/-- Outcome of `_listenerWrapper` for one dispatched event: an ephemeral
denial reply without invoking the handler, a completed handler
invocation, or the generic error reply after a handler exception. -/
inductive DispatchOutcome where
  | denial : String → Bool → DispatchOutcome
  | handled : DispatchOutcome
  | errorReply : String → Bool → DispatchOutcome
deriving DecidableEq, Repr

/-- Embedding of `Command._listenerWrapper` (src/lib/Command.js lines
409-437): a failed role check sends the descriptor's configured denial
message as an ephemeral reply and returns without calling the handler;
otherwise the handler runs and a thrown exception is converted into
the generic ephemeral error reply. -/
def listenerWrapper (c : Command) (a : UserActor)
    (handler : Except String Unit) : DispatchOutcome :=
  if !(checkRequiredRoles c a) then
    .denial c.requiredRolesErrorMessage true
  else
    match handler with
    | .ok _ => .handled
    | .error _ => .errorReply "An error occurred while executing the command" true

/-- Result of `_handleInteraction` for one raw event: the event was
dropped silently (from the bot itself), dropped with a log line (from
another bot), emitted under its event-kind key (plus the `external:`
variant), or ignored because no event-kind matched. -/
inductive HandleResult where
  | droppedSelf : HandleResult
  | droppedBot : HandleResult
  | emitted : String → String → HandleResult
  | ignored : HandleResult
deriving DecidableEq, Repr

/-- Embedding of `DiscordBot._handleInteraction` (src/lib/DiscordBot.js
lines 410-441): build the Normalized Event (which may throw), filter
bot authors before any classification, then classify and emit the
`external:` variant followed by the event-kind notification. -/
def handleInteraction (raw : RawEvent) (bot : BotState) :
    Except String HandleResult :=
  match mkInteraction raw bot with
  | .error e => .error e
  | .ok i =>
    if i.isFromBot then
      if i.isFromMe bot then .ok .droppedSelf
      else .ok .droppedBot
    else
      match i.eventName bot with
      | (some en, _) =>
        .ok (.emitted ("external:" ++ strHeadToken en ':') en)
      | (none, _) => .ok .ignored

/-- Result of `_mainListener`: either `_handleInteraction` completed, or
its exception was caught — in which case the catch block logs the
error AND attempts `interaction.reply` with the configured error
content (src/lib/DiscordBot.js lines 396-408). -/
inductive MainOutcome where
  | completed : HandleResult → MainOutcome
  | caughtWithReply : String → String → MainOutcome
deriving DecidableEq, Repr

/-- Embedding of `DiscordBot._mainListener`: the per-event try/catch
around `_handleInteraction`. -/
def mainListener (raw : RawEvent) (bot : BotState) : MainOutcome :=
  match handleInteraction raw bot with
  | .ok r => .completed r
  | .error e => .caughtWithReply e bot.errorContent

/-! Concrete fixtures: a small guild with one human member, one bot
account, and a bot runtime with marker "!" and one registered message
command "ping". -/

/-- Fixture: a human platform account. -/
def userEx : UserV := { id := "200", bot := false }

/-- Fixture: the human account's guild membership, with no roles. -/
def memberEx : MemberV := { user := userEx, nickname := none, roles := [] }

/-- Fixture: a guild whose member cache holds the human member. -/
def guildEx : GuildV := { memberCache := [("200", memberEx)] }

/-- Fixture: the bot runtime context. -/
def botEx : BotState :=
  { cmdMarker := "!", messageCommands := ["ping"], selfUserId := "111",
    selfUsername := "Unicorn", errorContent := "Oh no..." }

/-- Fixture: a guild text message "!ping" from the human member. -/
def rawPing : RawEvent :=
  { content := some "!ping", locale := none, guildLocale := none,
    member := some memberEx, user := none, author := some userEx,
    guild := JsOpt.val guildEx, commandName := none, customId := none,
    isButtonFn := none, isSelectMenuFn := none, menuValues := [],
    mentionsUsers := some [] }

/-- Fixture: the Actor resolved for the human member. -/
def actorEx : UserActor :=
  { member := some memberEx, user := userEx, userId := "200", isBot := false }

/-- Fixture: the Normalized Event built from `rawPing`. -/
def iPing : Interaction :=
  { content := "!ping", locale := "default", author := actorEx,
    guild := JsOpt.val guildEx, isDM := false, commandName := none,
    isSlashCommand := false, raw := rawPing }

/-- Fixture: a raw event carrying no member, no user and no author —
the identity-resolution failure case. -/
def rawNoAuthor : RawEvent :=
  { content := some "hello", locale := none, guildLocale := none,
    member := none, user := none, author := none, guild := JsOpt.null,
    commandName := none, customId := none, isButtonFn := none,
    isSelectMenuFn := none, menuValues := [], mentionsUsers := none }

/-- Fixture: a message-shaped event whose guild field is missing
(`undefined`) rather than explicitly `null`. -/
def rawUndefGuild : RawEvent :=
  { rawNoAuthor with author := some userEx, guild := JsOpt.undef,
                     content := some "hi" }

/-- Fixture: the Actor built from a bare account with no resolvable
membership. -/
def actorBare : UserActor :=
  { member := none, user := userEx, userId := "200", isBot := false }

/-- Fixture: the Normalized Event built from `rawUndefGuild`. -/
def iUndefGuild : Interaction :=
  { content := "hi", locale := "default", author := actorBare,
    guild := JsOpt.undef, isDM := false, commandName := none,
    isSlashCommand := false, raw := rawUndefGuild }

/-- Fixture: the same event with an explicit `null` guild. -/
def rawNullGuild : RawEvent :=
  { rawUndefGuild with guild := JsOpt.null }

/-- Fixture: the Normalized Event built from `rawNullGuild`. -/
def iNullGuild : Interaction :=
  { iUndefGuild with guild := JsOpt.null, isDM := true, raw := rawNullGuild }

/-- Fixture: a foreign bot account. -/
def botUserEx : UserV := { id := "999", bot := true }

/-- Fixture: a message authored by the foreign bot. -/
def rawFromBot : RawEvent :=
  { rawNoAuthor with author := some botUserEx, content := some "spam" }

/-- Fixture: the Actor of the foreign bot. -/
def actorBot : UserActor :=
  { member := none, user := botUserEx, userId := "999", isBot := true }

/-- Fixture: the Normalized Event built from `rawFromBot`. -/
def iFromBot : Interaction :=
  { content := "spam", locale := "default", author := actorBot,
    guild := JsOpt.null, isDM := true, commandName := none,
    isSlashCommand := false, raw := rawFromBot }

/-- Fixture: a DJ-gated command definition. -/
def dDj : CommandDef :=
  { name := "play", description := "play a song", requiredRoles := ["dj"] }

/-- Fixture: the validated DJ-gated descriptor. -/
def cDj : Command :=
  { name := "play", description := "play a song",
    hasButtonsHandler := false, hasSelectMenusHandler := false,
    hasMentionHandler := false, hasMessageHandler := false,
    hasDmHandler := false, isSlashCommand := true, isMessageCommand := true,
    requiredRoles := ["dj"], requireAllRoles := false,
    requiredRolesErrorMessage := "You do not have the required roles to use this command.",
    buttonsHandheld := [], selectMenusHandheld := [] }

/-- Fixture: a first command definition named "foo". -/
def dFoo : CommandDef := { name := "foo", description := "first foo" }

/-- Fixture: a second command definition whose name also folds to
"foo", colliding with the first on both of its keys. -/
def dFoo2 : CommandDef := { name := "Foo", description := "second foo" }

/-- Fixture: the validated second "foo" descriptor. -/
def cFoo2 : Command :=
  { name := "foo", description := "second foo",
    hasButtonsHandler := false, hasSelectMenusHandler := false,
    hasMentionHandler := false, hasMessageHandler := false,
    hasDmHandler := false, isSlashCommand := true, isMessageCommand := true,
    requiredRoles := [], requireAllRoles := false,
    requiredRolesErrorMessage := "You do not have the required roles to use this command.",
    buttonsHandheld := [], selectMenusHandheld := [] }

/-- Fixture: the registry after registering the first "foo". -/
def regFoo1 : Registry :=
  { listeners := [("slashCommand:foo", 0), ("messageCommand:foo", 0)] }

/-- Fixture: the registry after also registering the second "foo". -/
def regFoo2 : Registry :=
  { listeners := [("slashCommand:foo", 0), ("messageCommand:foo", 0),
                  ("slashCommand:foo", 1), ("messageCommand:foo", 1)] }

example : mkInteraction rawPing botEx = .ok iPing := rfl
example : (iPing.eventName botEx).1 = some "messageCommand:ping" := rfl
example : (iPing.eventName botEx).2.commandName = some "ping" := rfl
example : mkInteraction rawNoAuthor botEx
    = .error "TypeError: Cannot read properties of undefined (reading id)" := rfl
example : mkInteraction rawUndefGuild botEx = .ok iUndefGuild := rfl
example : mkInteraction rawNullGuild botEx = .ok iNullGuild := rfl
example : mkInteraction rawFromBot botEx = .ok iFromBot := rfl
example : handleInteraction rawFromBot botEx = .ok .droppedBot := rfl
example : mkCommand dFoo2 = .ok cFoo2 := rfl
example : Registry.addCommand Registry.empty dFoo 0 = .ok regFoo1 := rfl
example : Registry.addCommand regFoo1 dFoo2 1 = .ok regFoo2 := rfl
example : Registry.handlersFor regFoo2 "slashCommand:foo" = [0, 1] := rfl
example : checkRequiredRoles cDj actorBare = false := rfl
example : mkCommand dDj = .ok cDj := rfl

/-! Helper lemmas. -/

/-- Folding EventEmitter registrations over a key list appends one
listener per key, in order. -/
theorem listen_foldl_listeners (keys : List String) (r : Registry) (hid : Nat) :
    (keys.foldl (fun acc k => acc.on k hid) r).listeners
      = r.listeners ++ keys.map (fun k => (k, hid)) := by
  induction keys generalizing r with
  | nil => simp
  | cons k ks ih =>
    rw [List.foldl_cons, ih]
    simp [Registry.on]

/-- `_listen` only appends listeners: the listener list after
registration is the old list extended by one entry per handled key. -/
theorem listen_listeners (r : Registry) (c : Command) (hid : Nat) :
    (r.listen c hid).listeners
      = r.listeners ++ (listenKeys c).map (fun k => (k, hid)) := by
  unfold Registry.listen
  exact listen_foldl_listeners (listenKeys c) r hid

/-! Claim theorems. -/

/-- C1.  Evaluation of the reply protocol at the failing input: with the
direct reply failing and `editReply` (and `followUp`) succeeding, the
source still attempts all three strategies and still throws "failed to
reply to interaction", because only the first strategy ever assigns
`repliedWith`; when the direct reply succeeds, the later strategies are
not attempted and the call returns success.  This contradicts the
claimed protocol in which the first succeeding strategy ends the
operation with overall success and the error is raised only when all
three strategies fail. -/
theorem reply_fallback_bug_eval :
    (replyOp { directOk := false, editOk := true, followOk := true }
      = ([Strategy.direct, Strategy.editReply, Strategy.followUp],
         Except.error "failed to reply to interaction"))
  ∧ (replyOp { directOk := true, editOk := false, followOk := false }
      = ([Strategy.direct], Except.ok ())) :=
  ⟨rfl, rfl⟩

/-- C2, counterexample.  Registering two descriptors that both resolve
to the key "slashCommand:foo" does not raise any error: the second
registration succeeds and the key ends up shared by both handlers —
refuting the claim that a later registration with a colliding key
raises a fatal ConfigurationError and that a key is never shared. -/
theorem registry_collision_cex :
    (Registry.addCommand Registry.empty dFoo 0 = Except.ok regFoo1)
  ∧ (Registry.addCommand regFoo1 dFoo2 1 = Except.ok regFoo2)
  ∧ (Registry.handlersFor regFoo2 "slashCommand:foo" = [0, 1]) :=
  ⟨rfl, rfl, rfl⟩

/-- C2, amended.  A registration whose keys collide with existing ones
is accepted silently: once descriptor validation passes, registration
never raises; the new handler is appended under every key the
descriptor handles, and the handler lists of all keys are preserved as
prefixes — so a colliding key becomes shared by the descriptors rather
than raising an error or being overwritten. -/
theorem registry_collision_silent (r : Registry) (d : CommandDef) (hid : Nat)
    (c : Command) (h : mkCommand d = Except.ok c)
    (key : String) (hk : key ∈ listenKeys c) :
    (r.addCommand d hid = Except.ok (r.listen c hid))
  ∧ hid ∈ (r.listen c hid).handlersFor key
  ∧ ∀ k2, ∃ t, (r.listen c hid).handlersFor k2 = r.handlersFor k2 ++ t := by
  refine ⟨?_, ?_, ?_⟩
  · unfold Registry.addCommand
    rw [h]
  · unfold Registry.handlersFor
    rw [listen_listeners]
    have hmem : (key, hid) ∈ r.listeners ++ (listenKeys c).map (fun k => (k, hid)) :=
      List.mem_append.mpr (Or.inr (List.mem_map.mpr ⟨key, hk, rfl⟩))
    have hp : (((key, hid) : String × Nat).1 == key) = true := by simp
    exact List.mem_map.mpr ⟨(key, hid), List.mem_filter.mpr ⟨hmem, hp⟩, rfl⟩
  · intro k2
    unfold Registry.handlersFor
    rw [listen_listeners, List.filter_append, List.map_append]
    exact ⟨_, rfl⟩

/-- Witness for the amended C2 theorem at the colliding "foo"
registration. -/
theorem registry_collision_silent_witness :
    (regFoo1.addCommand dFoo2 1 = Except.ok (regFoo1.listen cFoo2 1))
  ∧ 1 ∈ (regFoo1.listen cFoo2 1).handlersFor "slashCommand:foo"
  ∧ ∀ k2, ∃ t, (regFoo1.listen cFoo2 1).handlersFor k2
      = regFoo1.handlersFor k2 ++ t :=
  registry_collision_silent regFoo1 dFoo2 1 cFoo2 rfl "slashCommand:foo"
    (by decide)

/-- C3.  The authorization gate: an empty requiredRoles policy always
succeeds; with `requireAllRoles` it succeeds exactly when the Actor has
every required entry; without it (on a non-empty policy) exactly when
the Actor has at least one; and on failure the listener wrapper sends
the descriptor's configured denial message as an ephemeral reply
without invoking the handler. -/
theorem authorization_gate (c : Command) (a : UserActor)
    (handler : Except String Unit) :
    (c.requiredRoles = [] → checkRequiredRoles c a = true)
  ∧ (c.requireAllRoles = true →
      (checkRequiredRoles c a = true ↔
        ∀ role ∈ c.requiredRoles, a.hasRole role = true))
  ∧ (c.requireAllRoles = false → c.requiredRoles ≠ [] →
      (checkRequiredRoles c a = true ↔
        ∃ role ∈ c.requiredRoles, a.hasRole role = true))
  ∧ (checkRequiredRoles c a = false →
      listenerWrapper c a handler
        = DispatchOutcome.denial c.requiredRolesErrorMessage true) := by
  refine ⟨?_, ?_, ?_, ?_⟩
  · intro h
    simp [checkRequiredRoles, h]
  · intro hall
    unfold checkRequiredRoles
    rcases hempty : c.requiredRoles with _ | ⟨r0, rs⟩
    · simp
    · rw [← hempty]
      have hlen : 0 < c.requiredRoles.length := by
        rw [hempty]; exact Nat.succ_pos _
      simp only [hlen, if_pos, hall, if_true, beq_iff_eq]
      rw [List.filter_length_eq_length]
  · intro hany hne
    unfold checkRequiredRoles
    have hlen : 0 < c.requiredRoles.length := List.length_pos.mpr hne
    simp only [hlen, if_pos, hany, Bool.false_eq_true, if_false,
      decide_eq_true_eq]
    rw [gt_iff_lt, List.length_pos_iff_exists_mem]
    constructor
    · rintro ⟨role, hr⟩
      rw [List.mem_filter] at hr
      exact ⟨role, hr.1, hr.2⟩
    · rintro ⟨role, hr, hhas⟩
      exact ⟨role, List.mem_filter.mpr ⟨hr, hhas⟩⟩
  · intro hfail
    unfold listenerWrapper
    rw [hfail]
    simp

/-- Witness for C3: the roleless Actor fails the DJ gate and the wrapper
replies with the configured denial message, ephemerally. -/
theorem authorization_gate_witness :
    listenerWrapper cDj actorBare (Except.ok ())
      = DispatchOutcome.denial
          "You do not have the required roles to use this command." true :=
  (authorization_gate cDj actorBare (Except.ok ())).2.2.2 rfl

/-- C10.  Role matching accepts either a role's display name or its id,
so policies may mix the two; and an Actor without a resolvable guild
membership has an empty role set and is denied by every non-empty
requiredRoles policy (either mode). -/
theorem hasRole_name_or_id (a : UserActor) (x : String) (c : Command) :
    (a.hasRole x = true ↔ ∃ r ∈ a.rolesOf, r.name = x ∨ r.id = x)
  ∧ (a.member = none → a.rolesOf = [])
  ∧ (a.member = none → c.requiredRoles ≠ [] →
      checkRequiredRoles c a = false) := by
  refine ⟨?_, ?_, ?_⟩
  · unfold UserActor.hasRole
    simp [List.any_eq_true]
  · intro h
    unfold UserActor.rolesOf
    rw [h]
  · intro hm hne
    have hroles : a.rolesOf = [] := by unfold UserActor.rolesOf; rw [hm]
    have hnorole : ∀ role, a.hasRole role = false := by
      intro role
      unfold UserActor.hasRole
      rw [hroles]
      rfl
    unfold checkRequiredRoles
    have hlen : 0 < c.requiredRoles.length := List.length_pos.mpr hne
    have hfilter : c.requiredRoles.filter (fun role => a.hasRole role) = [] := by
      rw [List.filter_eq_nil_iff]
      intro role _
      simp [hnorole role]
    simp only [hlen, if_pos, hfilter]
    rcases c.requireAllRoles with _ | _
    · simp
    · simp only [if_true, List.length_nil]
      rw [beq_eq_false_iff_ne]
      omega

/-- Witness for C10: the membership-less Actor is denied by the DJ
policy. -/
theorem hasRole_name_or_id_witness :
    checkRequiredRoles cDj actorBare = false :=
  (hasRole_name_or_id actorBare "dj" cDj).2.2 rfl (by decide)

/-- C5.  Bot-authored events are filtered before classification: when
the Normalized Event's author is a bot, the dispatcher returns the
silent drop for the bot itself and the logged drop for a foreign bot,
and in neither case emits any event-kind notification (so no handler
can be invoked for the event). -/
theorem bot_filter (raw : RawEvent) (bot : BotState) (i : Interaction)
    (hok : mkInteraction raw bot = Except.ok i) (hbot : i.isFromBot = true) :
    (handleInteraction raw bot
      = Except.ok (if i.isFromMe bot then HandleResult.droppedSelf
                   else HandleResult.droppedBot))
  ∧ ∀ ext en, handleInteraction raw bot
      ≠ Except.ok (HandleResult.emitted ext en) := by
  have hmain : handleInteraction raw bot
      = Except.ok (if i.isFromMe bot then HandleResult.droppedSelf
                   else HandleResult.droppedBot) := by
    unfold handleInteraction
    rw [hok]
    simp only [hbot]
    rcases i.isFromMe bot <;> simp
  refine ⟨hmain, ?_⟩
  intro ext en
  rw [hmain]
  rcases hme : i.isFromMe bot <;> simp

/-- Witness for C5 at a message authored by a foreign bot account. -/
theorem bot_filter_witness :
    handleInteraction rawFromBot botEx
      = Except.ok (if iFromBot.isFromMe botEx then HandleResult.droppedSelf
                   else HandleResult.droppedBot) :=
  (bot_filter rawFromBot botEx iFromBot rfl rfl).1

/-- Characterization of when Actor construction throws: exactly when
neither a user (after the `user || author` fallback) nor a member
argument is available.  (All other inputs produce an Actor; in
particular a bare user with no guild succeeds.) -/
theorem mkUser_error_iff (memberArg : Option MemberV) (userArg : Option UserV)
    (guildArg : JsOpt GuildV) :
    (∃ e, mkUser memberArg userArg guildArg = Except.error e)
      ↔ (userArg = none ∧ memberArg = none) := by
  unfold mkUser
  rcases userArg with _ | u
  · rcases memberArg with _ | m <;> simp
  · rcases guildArg with _ | _ | g
    · rcases memberArg with _ | m <;> simp
    · rcases memberArg with _ | m <;> simp
    · rcases hc : g.cacheGet u.id with _ | m <;> simp [hc]

/-- C6, counterexample.  At a raw event with no member, no user and no
author, normalization throws (a TypeError from reading `id` of
`undefined`, not a dedicated IdentityResolutionError) and the
dispatcher's catch block both logs the error and ATTEMPTS A REPLY with
the configured error content — refuting the claim that no reply is
sent on identity-resolution failure. -/
theorem identity_failure_reply_cex :
    mainListener rawNoAuthor botEx
      = MainOutcome.caughtWithReply
          "TypeError: Cannot read properties of undefined (reading id)"
          "Oh no..." := rfl

/-- C6, amended.  Normalization fails exactly when the raw event has
neither a member nor a user/author; the dispatcher then catches the
error inside `_mainListener` (so only this one event is affected),
logs it and attempts a generic error reply with the bot's configured
error content on the raw event. -/
theorem identity_failure_amended (raw : RawEvent) (bot : BotState) :
    ((∃ e, mkInteraction raw bot = Except.error e)
        ↔ (jsOrObj raw.user raw.author = none ∧ raw.member = none))
  ∧ (∀ e, handleInteraction raw bot = Except.error e →
        mainListener raw bot = MainOutcome.caughtWithReply e bot.errorContent) := by
  constructor
  · constructor
    · rintro ⟨e, he⟩
      unfold mkInteraction at he
      rcases hmk : mkUser raw.member (jsOrObj raw.user raw.author) raw.guild
        with e2 | a
      · exact (mkUser_error_iff _ _ _).mp ⟨e2, hmk⟩
      · rw [hmk] at he
        simp at he
    · rintro ⟨hu, hm⟩
      obtain ⟨e, he⟩ := (mkUser_error_iff raw.member
        (jsOrObj raw.user raw.author) raw.guild).mpr ⟨hu, hm⟩
      refine ⟨e, ?_⟩
      unfold mkInteraction
      rw [he]
  · intro e he
    unfold mainListener
    rw [he]

/-- Witness for the amended C6 theorem at the author-less raw event. -/
theorem identity_failure_amended_witness :
    ((∃ e, mkInteraction rawNoAuthor botEx = Except.error e)
        ↔ (jsOrObj rawNoAuthor.user rawNoAuthor.author = none
            ∧ rawNoAuthor.member = none))
  ∧ mainListener rawNoAuthor botEx
      = MainOutcome.caughtWithReply
          "TypeError: Cannot read properties of undefined (reading id)"
          botEx.errorContent :=
  ⟨(identity_failure_amended rawNoAuthor botEx).1,
   (identity_failure_amended rawNoAuthor botEx).2 _ rfl⟩

/-- C9, counterexample.  A message-shaped payload whose guild field is
missing (`undefined`) rather than explicitly `null` has an absent
guild context, yet the constructed Normalized Event's isDM flag is
false — refuting the claim that isDM is true exactly when the guild
context is absent, including missing-field payloads. -/
theorem isDM_missing_guild_cex :
    (mkInteraction rawUndefGuild botEx = Except.ok iUndefGuild)
  ∧ JsOpt.isAbsent iUndefGuild.guild = true
  ∧ iUndefGuild.isDM = false :=
  ⟨rfl, rfl, rfl⟩

/-- C9, amended.  The isDM flag of every constructed Normalized Event
is true exactly when the raw event's guild field is EXPLICITLY `null`
(the strict `guild === null` comparison); a missing/`undefined` guild
yields isDM = false. -/
theorem isDM_iff_guild_null (raw : RawEvent) (bot : BotState) (i : Interaction)
    (h : mkInteraction raw bot = Except.ok i) :
    i.isDM = true ↔ raw.guild = JsOpt.null := by
  unfold mkInteraction at h
  rcases hmk : mkUser raw.member (jsOrObj raw.user raw.author) raw.guild
    with e | a
  · rw [hmk] at h
    simp at h
  · rw [hmk] at h
    simp only [Except.ok.injEq] at h
    rw [← h]
    simp

/-- Witness for the amended C9 theorem: with an explicitly `null` guild
the constructed event has isDM = true. -/
theorem isDM_iff_guild_null_witness :
    iNullGuild.isDM = true :=
  (isDM_iff_guild_null rawNullGuild botEx iNullGuild rfl).mpr rfl

/-! Characterizations of the classifier, used by the classifier
theorems. -/

/-- The message-command rule's guard collapsed to one boolean: not a
slash command, not a button, the content starts with the configured
marker, and the parsed token is a live registered message command. -/
def mcGuard (i : Interaction) (bot : BotState) : Bool :=
  (!i.isSlashCommand && !i.isButton && strStartsWith i.content bot.cmdMarker)
    && bot.messageCommands.contains (mcToken i bot)

/-- A true message-command guard forces the slash and button guards
false. -/
theorem mcGuard_facts (i : Interaction) (bot : BotState)
    (h : mcGuard i bot = true) :
    i.isSlashCommand = false ∧ i.isButton = false := by
  unfold mcGuard at h
  simp only [Bool.and_eq_true, Bool.not_eq_true'] at h
  exact ⟨h.1.1.1, h.1.1.2⟩

/-- The message-command check in closed form: it returns the guard, and
it writes the parsed token into commandName exactly when the guard
holds. -/
theorem isMessageCommand_eq (i : Interaction) (bot : BotState) :
    i.isMessageCommand bot
      = (mcGuard i bot,
         if mcGuard i bot then { i with commandName := some (mcToken i bot) }
         else i) := by
  unfold Interaction.isMessageCommand mcGuard
  rcases hA : (!i.isSlashCommand && !i.isButton
      && strStartsWith i.content bot.cmdMarker) with _ | _
  · simp [hA]
  · rcases h4 : bot.messageCommands.contains (mcToken i bot) with _ | _
    · simp [hA, h4]
      intro hmem
      have h4e : List.elem (mcToken i bot) bot.messageCommands = false := h4
      rw [List.elem_eq_true_of_mem hmem] at h4e
      simp at h4e
    · simp [hA, h4]
      exact List.mem_of_elem_eq_true h4

/-- The classifier's state effect in closed form: the event returned by
`eventName` is the original event, except that commandName is set to
the parsed token when the select-menu rule did not fire and the
message-command guard holds. -/
theorem eventName_snd (i : Interaction) (bot : BotState) :
    (i.eventName bot).2
      = if !i.isSelectMenu && mcGuard i bot
        then { i with commandName := some (mcToken i bot) } else i := by
  unfold Interaction.eventName
  rw [isMessageCommand_eq]
  rcases h4 : mcGuard i bot with _ | _
  · rcases h1 : i.isButton <;> rcases h2 : i.isSelectMenu <;>
      rcases h3 : i.isSlashCommand <;>
      rcases h5 : i.isToMe bot <;> rcases h6 : i.isMentioningMe bot <;>
      rcases h7 : i.isDM <;>
        simp [h1, h2, h3, h5, h6, h7]
  · have hf := mcGuard_facts i bot h4
    rcases h2 : i.isSelectMenu with _ | _
    · simp [hf.1, hf.2, h2]
    · simp [hf.1, hf.2, h2]

/-- The event-kind priority rules as §4.2 of the specification words
them, in the fixed order, each with its guard and its resulting
event-kind string (guards and results written with the embedded
classifier flags). -/
def priorityRules (i : Interaction) (bot : BotState) : List (Bool × String) :=
  [ (i.isButton, "button:" ++ optStr i.buttonId),
    (i.isSelectMenu, "selectMenu:" ++ optStr i.selectMenuId),
    (i.isSlashCommand, "slashCommand:" ++ optStr i.commandName),
    ((i.isMessageCommand bot).1, "messageCommand:" ++ mcToken i bot),
    (i.isToMe bot || i.isMentioningMe bot, "mention"),
    (i.isDM, "directMessage"),
    (!i.isToMe bot && !i.isMentioningMe bot, "message") ]

/-- The classifier as the specification words it: the result of the
FIRST rule whose guard holds, in the fixed priority order, or none
when no guard holds. -/
def classifierSpec (i : Interaction) (bot : BotState) : Option String :=
  ((priorityRules i bot).find? (fun rule => rule.1)).map (fun rule => rule.2)

/-- C4.  The classifier computes exactly the first-match-wins scan of
the fixed priority rule list: button, select menu, slash command,
message command, mention/directed-at-bot, direct message, plain
message.  Being a single function of the event, it yields exactly one
event-kind (or none), and once an earlier rule matches the later rules
cannot influence the result. -/
theorem classifier_first_match (i : Interaction) (bot : BotState) :
    (i.eventName bot).1 = classifierSpec i bot := by
  unfold Interaction.eventName classifierSpec priorityRules
  rw [isMessageCommand_eq]
  rcases h4 : mcGuard i bot with _ | _
  · rcases h1 : i.isButton with _ | _ <;>
    rcases h2 : i.isSelectMenu with _ | _ <;>
    rcases h3 : i.isSlashCommand with _ | _ <;>
    rcases h5 : i.isToMe bot with _ | _ <;>
    rcases h6 : i.isMentioningMe bot with _ | _ <;>
    rcases h7 : i.isDM with _ | _ <;>
      simp [h1, h2, h3, h5, h6, h7, List.find?, optStr]
  · have hf := mcGuard_facts i bot h4
    rcases h2 : i.isSelectMenu with _ | _ <;>
      simp [hf.1, hf.2, h2, List.find?, optStr]

/-- Projections untouched by the commandName write (structure update
changes no other field). -/
theorem isButton_set_commandName (i : Interaction) (c : Option String) :
    ({ i with commandName := c } : Interaction).isButton = i.isButton := rfl

/-- Select-menu guard is unaffected by a commandName write. -/
theorem isSelectMenu_set_commandName (i : Interaction) (c : Option String) :
    ({ i with commandName := c } : Interaction).isSelectMenu
      = i.isSelectMenu := rfl

/-- Message-command guard is unaffected by a commandName write. -/
theorem mcGuard_set_commandName (i : Interaction) (bot : BotState)
    (c : Option String) :
    mcGuard ({ i with commandName := c } : Interaction) bot
      = mcGuard i bot := rfl

/-- Parsed token is unaffected by a commandName write. -/
theorem mcToken_set_commandName (i : Interaction) (bot : BotState)
    (c : Option String) :
    mcToken ({ i with commandName := c } : Interaction) bot
      = mcToken i bot := rfl

/-- The classifier's output when the select-menu rule does not fire and
the message-command guard holds: the message-command event-kind with
the parsed token. -/
theorem eventName_fst_msg (i : Interaction) (bot : BotState)
    (hsel : i.isSelectMenu = false) (hmc : mcGuard i bot = true) :
    (i.eventName bot).1 = some ("messageCommand:" ++ mcToken i bot) := by
  have hf := mcGuard_facts i bot hmc
  unfold Interaction.eventName
  rw [isMessageCommand_eq]
  simp [hf.1, hf.2, hsel, hmc, optStr]

/-- C7.  Classification is idempotent: evaluating `eventName` on the
event returned by a first evaluation (which may have written
commandName) yields the same event-kind as the first evaluation, for
the same live bot state. -/
theorem classification_idempotent (i : Interaction) (bot : BotState) :
    (((i.eventName bot).2).eventName bot).1 = (i.eventName bot).1 := by
  rw [eventName_snd]
  rcases h : (!i.isSelectMenu && mcGuard i bot) with _ | _
  · simp [h]
  · have hand := h
    simp only [Bool.and_eq_true, Bool.not_eq_true'] at hand
    have hsel : i.isSelectMenu = false := hand.1
    have hmc : mcGuard i bot = true := hand.2
    rw [if_pos rfl]
    rw [eventName_fst_msg ({ i with commandName := some (mcToken i bot) }) bot
          (by rw [isSelectMenu_set_commandName]; exact hsel)
          (by rw [mcGuard_set_commandName]; exact hmc),
        eventName_fst_msg i bot hsel hmc, mcToken_set_commandName]

/-- C8, counterexample.  Classifying the guild message "!ping" (marker
"!", live message-command set containing "ping") WRITES the event's
commandName field: it changes from none to some "ping" — refuting the
claim that classification leaves every field, including commandName,
unchanged. -/
theorem classification_writes_commandName_cex :
    (mkInteraction rawPing botEx = Except.ok iPing)
  ∧ iPing.commandName = none
  ∧ (iPing.eventName botEx).2.commandName = some "ping" :=
  ⟨rfl, rfl, rfl⟩

/-- C8, amended.  Classification performs no writes except to
commandName: every other field of the Normalized Event (raw handle,
content, slash flag, DM flag, author, locale, guild) is left
unchanged, and commandName itself is changed only when the
message-command rule fires, in which case it is set to the parsed
token. -/
theorem classification_frame (i : Interaction) (bot : BotState) :
    ((i.eventName bot).2.raw = i.raw)
  ∧ ((i.eventName bot).2.content = i.content)
  ∧ ((i.eventName bot).2.isSlashCommand = i.isSlashCommand)
  ∧ ((i.eventName bot).2.isDM = i.isDM)
  ∧ ((i.eventName bot).2.author = i.author)
  ∧ ((i.eventName bot).2.locale = i.locale)
  ∧ ((i.eventName bot).2.guild = i.guild)
  ∧ ((i.eventName bot).2.commandName = i.commandName
     ∨ ((i.isMessageCommand bot).1 = true
        ∧ (i.eventName bot).2.commandName = some (mcToken i bot))) := by
  rw [eventName_snd]
  rcases h : (!i.isSelectMenu && mcGuard i bot) with _ | _
  · simp [h]
  · have hand := h
    simp only [Bool.and_eq_true, Bool.not_eq_true'] at hand
    rw [if_pos rfl]
    refine ⟨rfl, rfl, rfl, rfl, rfl, rfl, rfl, Or.inr ⟨?_, rfl⟩⟩
    rw [isMessageCommand_eq]
    exact hand.2

end UnicornBot
